import Mathlib

/-!
Verification of the ReadingDaily scripture scraping/validation core.

This file shallowly embeds the Python modules
`scrapers/validator.py` and `scrapers/usccb_scraper.py`:

* Python values that can appear in a reading record are modelled by the
  inductive type `Val` (None, bool, int, str, list, dict as an
  association list).
* Python operations that can raise `TypeError`/`KeyError` (the `in`
  operator, subscripting, `len`) are modelled in the `Except String`
  monad; a `.error` result models a raised exception.
* `validate_reading`, `validate_reading_section`,
  `validate_psalm_section`, `calculate_checksum` and `verify_checksum`
  are translated statement by statement from `validator.py`.
* The BeautifulSoup document used by `usccb_scraper.py` is modelled as a
  tree of elements and text nodes; `find` / `find_next` /
  `find_previous` / `find_all` are modelled over the pre-order node list
  (which is exactly BeautifulSoup's `.next_element` document order).
-/

/-! ## Character and string utilities (Python semantics) -/

/-- Characters treated as whitespace by Python's `str.strip` and the
regex class `\s` (for the ASCII inputs that occur here). -/
def isSpaceCh (c : Char) : Bool :=
  c == ' ' || c == '\t' || c == '\n' || c == '\x0d' || c == '\x0b' || c == '\x0c'

/-- Python `str.lower` (ASCII range, which covers every keyword the
scraper compares against). -/
def pyLower (s : String) : String := ⟨s.data.map Char.toLower⟩

/-- Python `str.strip()`: drop whitespace from both ends. -/
def pyStrip (s : String) : String :=
  ⟨((s.data.dropWhile isSpaceCh).reverse.dropWhile isSpaceCh).reverse⟩

/-- List-level test that `pre` is an initial segment of `s`
(Python `str.startswith`). -/
def chStarts : List Char → List Char → Bool
  | [], _ => true
  | _ :: _, [] => false
  | a :: as, b :: bs => a == b && chStarts as bs

/-- List-level substring containment (Python `sub in s` on strings). -/
def chContainsL (sub : List Char) : List Char → Bool
  | [] => sub.isEmpty
  | c :: rest => chStarts sub (c :: rest) || chContainsL sub rest

/-- Python `sub in s` for strings. -/
def pyIn (sub s : String) : Bool := chContainsL sub.data s.data

/-- Python `s.startswith(pre)`. -/
def pyStartsWith (s pre : String) : Bool := chStarts pre.data s.data

/-- Helper for `collapseWS`: the boolean records whether the previous
character was part of a whitespace run already emitted as `' '`. -/
def collapseWSGo : Bool → List Char → List Char
  | _, [] => []
  | inRun, c :: rest =>
    if isSpaceCh c then
      if inRun then collapseWSGo true rest
      else ' ' :: collapseWSGo true rest
    else c :: collapseWSGo false rest

/-- Python `re.sub(r'\s+', ' ', s)`: every maximal whitespace run
becomes a single space. -/
def collapseWS (s : String) : String := ⟨collapseWSGo false s.data⟩

/-- Code-point lexicographic strict order on character lists (Python
string `<`). -/
def chLt : List Char → List Char → Bool
  | [], [] => false
  | [], _ :: _ => true
  | _ :: _, [] => false
  | a :: as, b :: bs =>
    if a.toNat < b.toNat then true
    else if b.toNat < a.toNat then false
    else chLt as bs

/-- Python string `<=`, used by `sorted`/`sort_keys`. -/
def strLe (a b : String) : Bool := !(chLt b.data a.data)

/-! ## Python values -/

/-- A Python value as it can occur inside a reading record: `None`,
`bool`, `int`, `str`, `list`, or `dict` (an association list keyed by
strings, the only key type these records use). -/
inductive Val where
  | vNone : Val
  | vBool : Bool → Val
  | vInt : Int → Val
  | vStr : String → Val
  | vList : List Val → Val
  | vDict : List (String × Val) → Val
deriving Repr

/-- Python truthiness: `None`, `False`, `0`, `""`, `[]`, `{ }` are
falsy, everything else truthy. -/
def truthy : Val → Bool
  | .vNone => false
  | .vBool b => b
  | .vInt n => n != 0
  | .vStr s => s != ""
  | .vList xs => !xs.isEmpty
  | .vDict kvs => !kvs.isEmpty

/-- Python `==` between values (only ever applied with a string on one
side in the embedded code; `True == 1` is modelled faithfully anyway). -/
def valBeq : Val → Val → Bool
  | .vNone, .vNone => true
  | .vBool a, .vBool b => a == b
  | .vBool a, .vInt n => (if a then (1 : Int) else 0) == n
  | .vInt n, .vBool a => n == (if a then (1 : Int) else 0)
  | .vInt a, .vInt b => a == b
  | .vStr a, .vStr b => a == b
  | .vList [], .vList [] => true
  | .vList (x :: xs), .vList (y :: ys) =>
    valBeq x y && valBeq (.vList xs) (.vList ys)
  | .vDict [], .vDict [] => true
  | .vDict ((k, v) :: kvs), .vDict ((k2, v2) :: kvs2) =>
    k == k2 && valBeq v v2 && valBeq (.vDict kvs) (.vDict kvs2)
  | _, _ => false

/-- A Python dict with string keys (the shape of a reading record). -/
def PyDict : Type := List (String × Val)

/-- Python `d[k]` lookup result as an option (first binding wins; the
records built by the scraper never contain duplicate keys). -/
def dget (d : PyDict) (k : String) : Option Val :=
  List.lookup k (d : List (String × Val))

/-- Python `k in d` for a dict. -/
def dmem (d : PyDict) (k : String) : Bool := (dget d k).isSome

/-- Python `key in container` for an arbitrary value: dict key test,
string substring test, list membership; raises `TypeError` on
non-iterable values (`None`, bools, ints). -/
def pyContains (container : Val) (key : String) : Except String Bool :=
  match container with
  | .vDict kvs => .ok (List.lookup key kvs).isSome
  | .vStr s => .ok (pyIn key s)
  | .vList xs => .ok (xs.any (fun x => valBeq x (.vStr key)))
  | _ => .error "TypeError: argument not iterable"

/-- Python `container[key]` with a string key: defined for dicts only;
strings and lists require integer indices and raise `TypeError`. -/
def pyIndex (container : Val) (key : String) : Except String Val :=
  match container with
  | .vDict kvs =>
    match List.lookup key kvs with
    | some v => .ok v
    | none => .error "KeyError"
  | _ => .error "TypeError: invalid subscript"

/-- Python `len` on a value: strings, lists and dicts are sized; other
values raise `TypeError`. -/
def pyLen : Val → Except String Nat
  | .vStr s => .ok s.length
  | .vList xs => .ok xs.length
  | .vDict kvs => .ok kvs.length
  | _ => .error "TypeError: object has no len"

/-! ## Validator (`scrapers/validator.py`) -/

/-- Error message of the date-format check (`validator.py` line 29). -/
def dateFmtMsg : String := "Invalid date format (expected YYYY-MM-DD)"

/-- Error message of the section-field presence check
(`validator.py` line 74). -/
def missingFieldMsg (name field : String) : String :=
  name ++ (": Missing field \x27" ++ (field ++ "\x27"))

/-- Error message of the section-field emptiness check
(`validator.py` line 76). -/
def emptyFieldMsg (name field : String) : String :=
  name ++ (": Field \x27" ++ (field ++ "\x27 is empty"))

/-- Error message of the text-length check (`validator.py` line 82). -/
def tooShortMsg (name : String) (n : Nat) : String :=
  name ++ (": Text too short (" ++ (toString n ++ " chars)"))

/-- Field-presence/emptiness loop of `validate_reading_section`
(`validator.py` lines 69-76). -/
def fieldErrors (sec : Val) (name : String) : Except String (List String) :=
  (["reference", "citation", "text", "title"]).foldlM
    (fun acc field => do
      let present ← pyContains sec field
      if present then do
        let v ← pyIndex sec field
        if truthy v then pure acc else pure (acc ++ [emptyFieldMsg name field])
      else
        pure (acc ++ [missingFieldMsg name field]))
    []

/-- `validate_reading_section` (`validator.py` lines 65-84). -/
def validate_reading_section (sec : Val) (name : String) :
    Except String (List String) := do
  let errors ← fieldErrors sec name
  let hasText ← pyContains sec "text"
  if hasText then do
    let text ← pyIndex sec "text"
    let n ← pyLen text
    if n < 50 then pure (errors ++ [tooShortMsg name n]) else pure errors
  else
    pure errors

/-- `validate_psalm_section` (`validator.py` lines 87-99). -/
def validate_psalm_section (sec : Val) : Except String (List String) := do
  let errors ← validate_reading_section sec "Psalm"
  let hasResp ← pyContains sec "response"
  if hasResp then do
    let v ← pyIndex sec "response"
    if truthy v then pure errors else pure (errors ++ ["Psalm: Response is empty"])
  else
    pure (errors ++ ["Psalm: Missing \x27response\x27 field"])

/-- The five top-level required fields (`validator.py` line 18). -/
def requiredFields : List String :=
  ["date", "liturgicalDate", "firstReading", "gospel", "metadata"]

/-- Required-field presence loop of `validate_reading`
(`validator.py` lines 18-21). -/
def requiredFieldErrors (reading : PyDict) : List String :=
  requiredFields.filterMap
    (fun f => if dmem reading f then none else some ("Missing required field: " ++ f))

/-- Date-format check of `validate_reading` (`validator.py` lines
24-31).  The surrounding `try/except` cannot fire: `len` is applied
only after the `isinstance(..., str)` test succeeds, so the
"Invalid date value" branch is dead code. -/
def dateErrors (reading : PyDict) : List String :=
  match dget reading "date" with
  | none => []
  | some (.vStr s) => if s.length != 10 then [dateFmtMsg] else []
  | some _ => [dateFmtMsg]

/-- First-reading check of `validate_reading` (`validator.py` lines
34-35): validated only when present and truthy. -/
def firstReadingPhase (reading : PyDict) : Except String (List String) :=
  match dget reading "firstReading" with
  | some v => if truthy v then validate_reading_section v "First Reading" else .ok []
  | none => .ok []

/-- Gospel check of `validate_reading` (`validator.py` lines 38-41):
missing or falsy gospel is itself an error. -/
def gospelPhase (reading : PyDict) : Except String (List String) :=
  match dget reading "gospel" with
  | some v =>
    if truthy v then validate_reading_section v "Gospel"
    else .ok ["Gospel reading is required but missing"]
  | none => .ok ["Gospel reading is required but missing"]

/-- Psalm check of `validate_reading` (`validator.py` lines 44-45). -/
def psalmPhase (reading : PyDict) : Except String (List String) :=
  match dget reading "psalm" with
  | some v => if truthy v then validate_psalm_section v else .ok []
  | none => .ok []

/-- Second-reading check of `validate_reading`
(`validator.py` lines 48-49). -/
def secondReadingPhase (reading : PyDict) : Except String (List String) :=
  match dget reading "secondReading" with
  | some v => if truthy v then validate_reading_section v "Second Reading" else .ok []
  | none => .ok []

/-- Liturgical-date check of `validate_reading`
(`validator.py` lines 52-60). -/
def liturgicalDateErrors (reading : PyDict) : List String :=
  match dget reading "liturgicalDate" with
  | none => []
  | some (.vDict d) =>
    (if dmem d "season" then [] else ["liturgicalDate missing season"]) ++
      (if dmem d "dayOfWeek" then [] else ["liturgicalDate missing dayOfWeek"])
  | some _ => ["liturgicalDate must be an object"]

/-- `validate_reading` (`validator.py` lines 10-62), translated
statement by statement; each named phase above is one statement group
of the source, and `errors` accumulates left to right exactly as the
Python `errors` list does.  Exceptions raised by the section
validators (possible when a section value has a non-iterable type)
propagate as `.error`, modelling the uncaught Python `TypeError`. -/
def validate_reading (reading : PyDict) : Except String (Bool × List String) :=
  let errors : List String := requiredFieldErrors reading
  let errors : List String := errors ++ dateErrors reading
  match firstReadingPhase reading with
  | .error e => .error e
  | .ok frErrs =>
    let errors := errors ++ frErrs
    match gospelPhase reading with
    | .error e => .error e
    | .ok gErrs =>
      let errors := errors ++ gErrs
      match psalmPhase reading with
      | .error e => .error e
      | .ok pErrs =>
        let errors := errors ++ pErrs
        match secondReadingPhase reading with
        | .error e => .error e
        | .ok srErrs =>
          let errors := errors ++ srErrs
          let errors := errors ++ liturgicalDateErrors reading
          .ok (errors.length == 0, errors)

/-! ## Checksum (`scrapers/validator.py` lines 102-136)

`calculate_checksum` serializes the content sub-object with
`json.dumps(content, sort_keys=True, ensure_ascii=False)` and hashes the
UTF-8 bytes with MD5.  The serializer and MD5 are implemented below.
Key sorting is factored out as a normalization pass (`sortKeysVal`)
applied before printing, which is semantically what `sort_keys=True`
does during printing.  The `except` fallback branch of
`calculate_checksum` (hash of `str(reading)`) is unreachable in this
model: every `Val` is JSON-serializable, just as every value the
scraper can place in a record is. -/

/-- Stable insertion of one key/value pair into a key-sorted list
(Python `sorted` on keys). -/
def insertKV (p : String × Val) : List (String × Val) → List (String × Val)
  | [] => [p]
  | q :: qs => if strLe p.1 q.1 then p :: q :: qs else q :: insertKV p qs

/-- Insertion sort by key, as performed by `json.dumps(sort_keys=True)`
on each object. -/
def sortKVList : List (String × Val) → List (String × Val)
  | [] => []
  | p :: ps => insertKV p (sortKVList ps)

mutual

/-- Recursively sort the keys of every dict inside a value. -/
def sortKeysVal : Val → Val
  | .vDict kvs => .vDict (sortKVList (sortKeysKVs kvs))
  | .vList xs => .vList (sortKeysList xs)
  | v => v

/-- Key normalization mapped over list elements. -/
def sortKeysList : List Val → List Val
  | [] => []
  | x :: xs => sortKeysVal x :: sortKeysList xs

/-- Key normalization mapped over dict entries. -/
def sortKeysKVs : List (String × Val) → List (String × Val)
  | [] => []
  | (k, v) :: kvs => (k, sortKeysVal v) :: sortKeysKVs kvs

end

/-- Hex digit character (lowercase), used by the JSON `\uXXXX` escapes
and the final digest. -/
def hexDigit (n : Nat) : Char :=
  if n < 10 then Char.ofNat (48 + n) else Char.ofNat (87 + n)

/-- JSON escaping of one character with `ensure_ascii=False`: only the
quote, the backslash and control characters are escaped; everything
else (including non-ASCII) is emitted verbatim. -/
def jsonEscapeChar (c : Char) : String :=
  if c == '"' then "\\\""
  else if c == '\\' then "\\\\"
  else if c == '\n' then "\\n"
  else if c == '\t' then "\\t"
  else if c == '\x0d' then "\\r"
  else if c == '\x08' then "\\b"
  else if c == '\x0c' then "\\f"
  else if c.toNat < 32 then
    String.mk ['\\', 'u', '0', '0', hexDigit (c.toNat / 16), hexDigit (c.toNat % 16)]
  else String.singleton c

/-- JSON string literal. -/
def jsonStr (s : String) : String :=
  "\"" ++ s.data.foldr (fun c acc => jsonEscapeChar c ++ acc) "" ++ "\""

mutual

/-- `json.dumps` with default separators (`", "` and `": "`) over a
key-normalized value. -/
def jsonDumps : Val → String
  | .vNone => "null"
  | .vBool b => if b then "true" else "false"
  | .vInt n => toString n
  | .vStr s => jsonStr s
  | .vList xs => "[" ++ jsonDumpsList xs ++ "]"
  | .vDict kvs => "\x7b" ++ jsonDumpsKVs kvs ++ "\x7d"

/-- Comma-separated array elements. -/
def jsonDumpsList : List Val → String
  | [] => ""
  | [x] => jsonDumps x
  | x :: y :: xs => jsonDumps x ++ ", " ++ jsonDumpsList (y :: xs)

/-- Comma-separated object entries. -/
def jsonDumpsKVs : List (String × Val) → String
  | [] => ""
  | [(k, v)] => jsonStr k ++ ": " ++ jsonDumps v
  | (k, v) :: q :: kvs => jsonStr k ++ ": " ++ jsonDumps v ++ ", " ++ jsonDumpsKVs (q :: kvs)

end

/-- UTF-8 encoding of one code point as a byte list. -/
def utf8Char (c : Nat) : List Nat :=
  if c < 128 then [c]
  else if c < 2048 then [192 + c / 64, 128 + c % 64]
  else if c < 65536 then [224 + c / 4096, 128 + (c / 64) % 64, 128 + c % 64]
  else [240 + c / 262144, 128 + (c / 4096) % 64, 128 + (c / 64) % 64, 128 + c % 64]

/-- UTF-8 bytes of a string (`str.encode('utf-8')`). -/
def utf8Bytes (s : String) : List Nat :=
  s.data.foldr (fun c acc => utf8Char c.toNat ++ acc) []

/-! ### MD5 (RFC 1321), over byte lists, words as `Nat` modulo `2^32` -/

/-- Addition modulo `2^32`. -/
def add32 (a b : Nat) : Nat := (a + b) % 4294967296

/-- Left rotation of a 32-bit word. -/
def rotl32 (x s : Nat) : Nat :=
  ((x * 2 ^ s) % 4294967296) + x / 2 ^ (32 - s)

/-- MD5 round function F. -/
def md5F (b c d : Nat) : Nat := (b &&& c) ||| ((b ^^^ 4294967295) &&& d)

/-- MD5 round function G. -/
def md5G (b c d : Nat) : Nat := (d &&& b) ||| ((d ^^^ 4294967295) &&& c)

/-- MD5 round function H. -/
def md5H (b c d : Nat) : Nat := b ^^^ c ^^^ d

/-- MD5 round function I. -/
def md5I (b c d : Nat) : Nat := c ^^^ (b ||| (d ^^^ 4294967295))

/-- MD5 sine-derived constant table. -/
def md5K : List Nat :=
  [0xd76aa478, 0xe8c7b756, 0x242070db, 0xc1bdceee,
   0xf57c0faf, 0x4787c62a, 0xa8304613, 0xfd469501,
   0x698098d8, 0x8b44f7af, 0xffff5bb1, 0x895cd7be,
   0x6b901122, 0xfd987193, 0xa679438e, 0x49b40821,
   0xf61e2562, 0xc040b340, 0x265e5a51, 0xe9b6c7aa,
   0xd62f105d, 0x02441453, 0xd8a1e681, 0xe7d3fbc8,
   0x21e1cde6, 0xc33707d6, 0xf4d50d87, 0x455a14ed,
   0xa9e3e905, 0xfcefa3f8, 0x676f02d9, 0x8d2a4c8a,
   0xfffa3942, 0x8771f681, 0x6d9d6122, 0xfde5380c,
   0xa4beea44, 0x4bdecfa9, 0xf6bb4b60, 0xbebfbc70,
   0x289b7ec6, 0xeaa127fa, 0xd4ef3085, 0x04881d05,
   0xd9d4d039, 0xe6db99e5, 0x1fa27cf8, 0xc4ac5665,
   0xf4292244, 0x432aff97, 0xab9423a7, 0xfc93a039,
   0x655b59c3, 0x8f0ccc92, 0xffeff47d, 0x85845dd1,
   0x6fa87e4f, 0xfe2ce6e0, 0xa3014314, 0x4e0811a1,
   0xf7537e82, 0xbd3af235, 0x2ad7d2bb, 0xeb86d391]

/-- MD5 per-round shift amounts. -/
def md5S : List Nat :=
  [7, 12, 17, 22, 7, 12, 17, 22, 7, 12, 17, 22, 7, 12, 17, 22,
   5, 9, 14, 20, 5, 9, 14, 20, 5, 9, 14, 20, 5, 9, 14, 20,
   4, 11, 16, 23, 4, 11, 16, 23, 4, 11, 16, 23, 4, 11, 16, 23,
   6, 10, 15, 21, 6, 10, 15, 21, 6, 10, 15, 21, 6, 10, 15, 21]

/-- Little-endian word `j` of a 64-byte chunk. -/
def leWord (chunk : List Nat) (j : Nat) : Nat :=
  chunk.getD (4 * j) 0 + 256 * chunk.getD (4 * j + 1) 0 +
    65536 * chunk.getD (4 * j + 2) 0 + 16777216 * chunk.getD (4 * j + 3) 0

/-- One MD5 round applied to the running state. -/
def md5Round (chunk : List Nat) (st : Nat × Nat × Nat × Nat) (i : Nat) :
    Nat × Nat × Nat × Nat :=
  let (a, b, c, d) := st
  let fg : Nat × Nat :=
    if i < 16 then (md5F b c d, i)
    else if i < 32 then (md5G b c d, (5 * i + 1) % 16)
    else if i < 48 then (md5H b c d, (3 * i + 5) % 16)
    else (md5I b c d, (7 * i) % 16)
  let tmp := add32 (add32 (add32 a fg.1) (md5K.getD i 0)) (leWord chunk fg.2)
  (d, add32 b (rotl32 tmp (md5S.getD i 0)), b, c)

/-- Process one 64-byte chunk, adding the round output into the state. -/
def md5Chunk (st : Nat × Nat × Nat × Nat) (chunk : List Nat) :
    Nat × Nat × Nat × Nat :=
  let (a0, b0, c0, d0) := st
  let (a, b, c, d) := (List.range 64).foldl (md5Round chunk) (a0, b0, c0, d0)
  (add32 a0 a, add32 b0 b, add32 c0 c, add32 d0 d)

/-- Split a byte list into 64-byte chunks. -/
def chunks64 : List Nat → List (List Nat)
  | [] => []
  | a :: l => (a :: l).take 64 :: chunks64 ((a :: l).drop 64)
termination_by l => l.length
decreasing_by
  simp [List.length_drop]
  omega

/-- `n` little-endian bytes of a number. -/
def leBytes : Nat → Nat → List Nat
  | 0, _ => []
  | n + 1, v => v % 256 :: leBytes n (v / 256)

/-- Two-digit lowercase hex of a byte. -/
def byteHex (b : Nat) : String := String.mk [hexDigit (b / 16), hexDigit (b % 16)]

/-- MD5 digest of a byte list as a lowercase hex string
(`hashlib.md5(...).hexdigest()`). -/
def md5hex (msg : List Nat) : String :=
  let padded :=
    msg ++ 128 :: List.replicate ((119 - msg.length % 64) % 64) 0 ++
      leBytes 8 (8 * msg.length)
  let st := (chunks64 padded).foldl md5Chunk
    (0x67452301, 0xefcdab89, 0x98badcfe, 0x10325476)
  String.join ((leBytes 4 st.1 ++ leBytes 4 st.2.1 ++ leBytes 4 st.2.2.1 ++
    leBytes 4 st.2.2.2).map byteHex)

/-- The content sub-object of `calculate_checksum`
(`validator.py` lines 110-116): the five content fields, fetched with
`reading.get` so a missing field contributes `None`; `metadata` is
deliberately excluded. -/
def contentOf (reading : PyDict) : Val :=
  .vDict [("date", (dget reading "date").getD .vNone),
          ("firstReading", (dget reading "firstReading").getD .vNone),
          ("psalm", (dget reading "psalm").getD .vNone),
          ("secondReading", (dget reading "secondReading").getD .vNone),
          ("gospel", (dget reading "gospel").getD .vNone)]

/-- `calculate_checksum` (`validator.py` lines 102-128). -/
def calculate_checksum (reading : PyDict) : String :=
  md5hex (utf8Bytes (jsonDumps (sortKeysVal (contentOf reading))))

/-- `verify_checksum` (`validator.py` lines 131-136). -/
def verify_checksum (reading : PyDict) (expected_checksum : String) : Bool :=
  calculate_checksum reading == expected_checksum

/-! ## Markup document model (`scrapers/usccb_scraper.py`)

The parsed BeautifulSoup document is a tree of element nodes (tag name,
CSS classes, children) and text nodes.  BeautifulSoup's `find_next` and
`find_previous` walk the `.next_element` / `.previous_element` chain,
which is exactly the pre-order traversal of the tree, so the search
helpers below operate on the pre-order node list with positions as
identities. -/

/-- A node of the parsed markup tree. -/
inductive Node where
  | elem : String → List String → List Node → Node
  | text : String → Node
deriving Repr

mutual

/-- Pre-order list of every node of a tree (the node itself first, then
its children's traversals): BeautifulSoup document order. -/
def allNodes : Node → List Node
  | .text s => [.text s]
  | .elem t c cs => .elem t c cs :: allNodesL cs

/-- Pre-order traversal of a forest. -/
def allNodesL : List Node → List Node
  | [] => []
  | n :: ns => allNodes n ++ allNodesL ns

end

/-- Proper descendants of a node in document order (what `find_all`
searches). -/
def descendantsOf : Node → List Node
  | .text _ => []
  | .elem _ _ cs => allNodesL cs

/-- BeautifulSoup `tag.string`: the single string child, recursing
through a single element child; `None` when the node has zero or
several children. -/
def nodeString : Node → Option String
  | .text s => some s
  | .elem _ _ [c] => nodeString c
  | .elem _ _ _ => none

mutual

/-- All text fragments of a subtree in document order
(BeautifulSoup `strings`). -/
def strFrags : Node → List String
  | .text s => [s]
  | .elem _ _ cs => strFragsL cs

/-- Text fragments of a forest. -/
def strFragsL : List Node → List String
  | [] => []
  | n :: ns => strFrags n ++ strFragsL ns

end

/-- BeautifulSoup `get_text(separator=sep, strip=True)`: each fragment
stripped, empty fragments dropped, the rest joined with `sep`. -/
def getTextStrip (sep : String) (n : Node) : String :=
  String.intercalate sep (((strFrags n).map pyStrip).filter (fun s => s != ""))

/-- First node at position `≥ start` (positions are pre-order indices)
satisfying the predicate, returned with its position. -/
def findWithIdx : List Node → Nat → (Node → Bool) → Option (Nat × Node)
  | [], _, _ => none
  | n :: rest, i, p => if p n then some (i, n) else findWithIdx rest (i + 1) p

/-- `soup.find(...)`: first matching node of the document. -/
def findNode (doc : Node) (p : Node → Bool) : Option (Nat × Node) :=
  findWithIdx (allNodes doc) 0 p

/-- `tag.find_next(...)` for the node at position `i`: first match
strictly after `i` in document order. -/
def findNextIdx (doc : Node) (i : Nat) (p : Node → Bool) : Option (Nat × Node) :=
  findWithIdx ((allNodes doc).drop (i + 1)) (i + 1) p

/-- `tag.find_previous(...)` for the node at position `i`: nearest
match strictly before `i` in document order. -/
def findPrevNode (doc : Node) (i : Nat) (p : Node → Bool) : Option Node :=
  ((allNodes doc).take i).reverse.find? p

/-- Tag-name test. -/
def isTag (t : String) : Node → Bool
  | .elem tag _ _ => tag == t
  | .text _ => false

/-- CSS-class test (`class_=` filter). -/
def hasClass (c : String) : Node → Bool
  | .elem _ classes _ => classes.contains c
  | .text _ => false

/-- `div` with class `content-body`. -/
def divContentBody (n : Node) : Bool := isTag "div" n && hasClass "content-body" n

/-- `div` with class `address` (the citation holder). -/
def divAddress (n : Node) : Bool := isTag "div" n && hasClass "address" n

/-- Paragraph element. -/
def isP (n : Node) : Bool := isTag "p" n

/-- `re.compile('Gospel', re.I).search`. -/
def gospelPat (s : String) : Bool := pyIn "gospel" (pyLower s)

/-- `re.compile(r'(Reading 2|Second Reading)', re.I).search`. -/
def secondPat (s : String) : Bool :=
  pyIn "reading 2" (pyLower s) || pyIn "second reading" (pyLower s)

/-- `re.compile('Responsorial Psalm', re.I).search`. -/
def psalmPat (s : String) : Bool := pyIn "responsorial psalm" (pyLower s)

/-- `soup.find('h3', string=pattern)`: an `h3` whose `tag.string`
exists and matches the pattern. -/
def h3StringMatch (pat : String → Bool) (n : Node) : Bool :=
  isTag "h3" n &&
    (match nodeString n with
     | some s => pat s
     | none => false)

/-- The three reading types handled by `_extract_reading`. -/
inductive RType where
  | first : RType
  | second : RType
  | gospel : RType
deriving Repr, DecidableEq

/-- Section location of `_extract_reading`
(`usccb_scraper.py` lines 127-147), returning the section's pre-order
position (needed for `find_previous`) together with the node. -/
def locateSection (doc : Node) : RType → Option (Nat × Node)
  | .first => findNode doc divContentBody
  | .second =>
    match findNode doc (h3StringMatch secondPat) with
    | none => none
    | some (i, _) => findNextIdx doc i divContentBody
  | .gospel =>
    match findNode doc (h3StringMatch gospelPat) with
    | some (i, _) => findNextIdx doc i divContentBody
    | none => ((allNodes doc).enum.filter (fun q => divContentBody q.2)).getLast?

/-- Citation extraction (`usccb_scraper.py` lines 150-151 and 204-205):
`get_text(strip=True)` of the nearest preceding `div.address`, else the
empty string. -/
def citationOf (doc : Node) (i : Nat) : String :=
  match findPrevNode doc i divAddress with
  | some nd => getTextStrip "" nd
  | none => ""

/-- Normalization of one paragraph (`usccb_scraper.py` lines 159-160
and 213-214): `get_text(separator=' ', strip=True)` then
`re.sub(r'\s+', ' ', ...)`. -/
def normPara (p : Node) : String := collapseWS (getTextStrip " " p)

/-- Normalized text of every `p` descendant of a section, in document
order (`section.find_all('p')` plus per-paragraph normalization). -/
def paraTextsAll (sec : Node) : List String :=
  ((descendantsOf sec).filter isP).map normPara

/-- The record `_extract_reading` returns
(`usccb_scraper.py` lines 177-183). -/
structure ReadingRec where
  reference : String
  citation : String
  text : String
  title : String
  audioUrl : Option String
deriving Repr, DecidableEq

/-- The record `_extract_psalm` returns
(`usccb_scraper.py` lines 226-233). -/
structure PsalmRec where
  reference : String
  citation : String
  text : String
  response : String
  title : String
  audioUrl : Option String
deriving Repr, DecidableEq

/-- Fixed title per reading type (`usccb_scraper.py` lines 169-175). -/
def titleOf : RType → String
  | .first => "First Reading"
  | .second => "Second Reading"
  | .gospel => "Gospel"

/-- `_extract_reading` (`usccb_scraper.py` lines 122-187): locate the
section, take the nearest preceding citation, join the nonempty
normalized paragraphs with blank lines, and return `None` when the
joined text is empty. -/
def extract_reading (doc : Node) (reading_type : RType) : Option ReadingRec :=
  match locateSection doc reading_type with
  | none => none
  | some (i, sec) =>
    let citation := citationOf doc i
    let text_parts := (paraTextsAll sec).filter (fun t => t != "")
    let full_text := String.intercalate "\n\n" text_parts
    if full_text == "" then none
    else
      some { reference := citation, citation := citation, text := full_text,
             title := titleOf reading_type, audioUrl := none }

/-- Liturgical response marker test (`usccb_scraper.py` line 217). -/
def startsMarker (t : String) : Bool := pyStartsWith t "R." || pyStartsWith t "℟."

/-- The paragraph loop of `_extract_psalm`
(`usccb_scraper.py` lines 211-222), carried state `(response,
text_parts)` exactly as in the source: a marker paragraph sets the
response if it is still empty and is always appended; other nonempty
paragraphs are appended; empty paragraphs are dropped. -/
def psalmLoop : List String → String × List String → String × List String
  | [], st => st
  | t :: ts, (resp, parts) =>
    if startsMarker t then
      psalmLoop ts ((if resp == "" then t else resp), parts ++ [t])
    else if t != "" then psalmLoop ts (resp, parts ++ [t])
    else psalmLoop ts (resp, parts)

/-- Psalm section location (`usccb_scraper.py` lines 195-201): the
`Responsorial Psalm` heading, then the next `div.content-body`. -/
def locatePsalmSection (doc : Node) : Option (Nat × Node) :=
  match findNode doc (h3StringMatch psalmPat) with
  | none => none
  | some (i, _) => findNextIdx doc i divContentBody

/-- `_extract_psalm` (`usccb_scraper.py` lines 189-237).  Note that
unlike `_extract_reading` there is no empty-text guard before the
record is built. -/
def extract_psalm (doc : Node) : Option PsalmRec :=
  match locatePsalmSection doc with
  | none => none
  | some (i, sec) =>
    let citation := citationOf doc i
    let st := psalmLoop (paraTextsAll sec) ("", [])
    let full_text := String.intercalate "\n\n" st.2
    some { reference := citation, citation := citation, text := full_text,
           response := st.1, title := "Responsorial Psalm", audioUrl := none }

/-! ## Season and color (`usccb_scraper.py` lines 239-284) -/

/-- `_determine_season` (`usccb_scraper.py` lines 239-267).  The
`date` argument enters only through `date.month`, so the embedding
takes the month directly. -/
def determine_season (liturgical_title : String) (month : Nat) : String :=
  let title_lower := pyLower liturgical_title
  if pyIn "advent" title_lower then "Advent"
  else if pyIn "christmas" title_lower then "Christmas"
  else if pyIn "lent" title_lower || pyIn "ash wednesday" title_lower then "Lent"
  else if pyIn "easter" title_lower then "Easter"
  else if pyIn "ordinary time" title_lower then "Ordinary Time"
  else if month == 11 || month == 12 then "Advent"
  else if month == 1 then "Christmas"
  else if month == 2 || month == 3 then "Lent"
  else if month == 4 then "Easter"
  else "Ordinary Time"

/-- The season → color table (`usccb_scraper.py` lines 276-282). -/
def seasonColors : List (String × String) :=
  [("Advent", "purple"), ("Christmas", "white"), ("Lent", "purple"),
   ("Easter", "white"), ("Ordinary Time", "green")]

/-- `_get_liturgical_color` (`usccb_scraper.py` lines 269-284): the
`feast_day` parameter is `Optional[str]`, and the `if feast_day and
...` guard is the Python truthiness test (absent or empty string both
fail it). -/
def get_liturgical_color (season : String) (feast_day : Option String) : String :=
  if (match feast_day with
      | some f => f != "" &&
          (pyIn "mary" (pyLower f) || pyIn "virgin" (pyLower f))
      | none => false) then "white"
  else ((seasonColors.lookup season).getD "green")

/-! ## Definitions following the specification text

The definitions in this section are written from the specification's
words (not from the Python source); the claim theorems compare them
with the embedded code above. -/

/-- Errors of the top-level field checks: the first segment of the
traversal order stated by the specification (required-field presence,
then the date-format rule). -/
def topLevelErrors (reading : PyDict) : List String :=
  requiredFieldErrors reading ++ dateErrors reading

/-- Validation result described by the specification: deterministic
error accumulation in the fixed traversal order top-level fields,
first reading, gospel, psalm, second reading, liturgicalDate, with
`valid` true exactly when the list is empty. -/
def validatePhased (reading : PyDict) : Except String (Bool × List String) := do
  let frErrs ← firstReadingPhase reading
  let gErrs ← gospelPhase reading
  let pErrs ← psalmPhase reading
  let srErrs ← secondReadingPhase reading
  let errs := topLevelErrors reading ++ frErrs ++ gErrs ++ pErrs ++ srErrs ++
    liturgicalDateErrors reading
  pure (errs.length == 0, errs)

/-- Season resolution described by the specification: keyword match
against the title for Advent, Christmas, Lent (with "ash wednesday"
also implying Lent), Easter and Ordinary Time, in that order; with no
keyword match, the month table Nov-Dec → Advent, Jan → Christmas,
Feb-Mar → Lent, Apr → Easter, else → Ordinary Time. -/
def seasonSpec (title : String) (month : Nat) : String :=
  if pyIn "advent" (pyLower title) then "Advent"
  else if pyIn "christmas" (pyLower title) then "Christmas"
  else if pyIn "lent" (pyLower title) then "Lent"
  else if pyIn "ash wednesday" (pyLower title) then "Lent"
  else if pyIn "easter" (pyLower title) then "Easter"
  else if pyIn "ordinary time" (pyLower title) then "Ordinary Time"
  else if month = 11 ∨ month = 12 then "Advent"
  else if month = 1 then "Christmas"
  else if month = 2 ∨ month = 3 then "Lent"
  else if month = 4 then "Easter"
  else "Ordinary Time"

/-- Season → color table described by the specification: Advent/Lent →
purple, Christmas/Easter → white, Ordinary Time → green, and green for
any season outside the table. -/
def colorTableSpec (season : String) : String :=
  if season = "Advent" then "purple"
  else if season = "Christmas" then "white"
  else if season = "Lent" then "purple"
  else if season = "Easter" then "white"
  else if season = "Ordinary Time" then "green"
  else "green"

/-- Color rule described by the specification, feast-day layer: white
when a feast day is present and mentions "mary" or "virgin"
case-insensitively, otherwise the table value. -/
def colorSpec (season : String) (feastDay : Option String) : String :=
  match feastDay with
  | some f =>
    if pyIn "mary" (pyLower f) || pyIn "virgin" (pyLower f) then "white"
    else colorTableSpec season
  | none => colorTableSpec season

/-! ## Concrete inputs used by witnesses and counterexamples -/

/-- A reading text longer than 50 characters. -/
def longText : String :=
  "In the beginning, when God created the heavens and the earth, the earth was a formless wasteland."

/-- A valid first-reading section. -/
def exFirstSec : Val :=
  .vDict [("reference", .vStr "Gn 1:1-10"), ("citation", .vStr "Gn 1:1-10"),
          ("text", .vStr longText), ("title", .vStr "First Reading")]

/-- A valid gospel section. -/
def exGospelSec : Val :=
  .vDict [("reference", .vStr "Lk 9:57-62"), ("citation", .vStr "Lk 9:57-62"),
          ("text", .vStr longText), ("title", .vStr "Gospel")]

/-- A valid psalm section (non-empty response). -/
def exPsalmSec : Val :=
  .vDict [("reference", .vStr "Ps 23"), ("citation", .vStr "Ps 23"),
          ("text", .vStr longText), ("title", .vStr "Responsorial Psalm"),
          ("response", .vStr "R. The Lord is my shepherd.")]

/-- A complete valid record with one metadata block. -/
def exRecA : PyDict :=
  [("date", .vStr "2025-10-01"),
   ("liturgicalDate", .vDict [("season", .vStr "Ordinary Time"),
                              ("dayOfWeek", .vStr "Wednesday")]),
   ("firstReading", exFirstSec),
   ("psalm", exPsalmSec),
   ("gospel", exGospelSec),
   ("metadata", .vDict [("source", .vStr "USCCB"),
                        ("sourceUrl", .vStr "https://bible.usccb.org/bible/readings/100125.cfm")])]

/-- The same record with a different metadata block. -/
def exRecB : PyDict :=
  [("date", .vStr "2025-10-01"),
   ("liturgicalDate", .vDict [("season", .vStr "Ordinary Time"),
                              ("dayOfWeek", .vStr "Wednesday")]),
   ("firstReading", exFirstSec),
   ("psalm", exPsalmSec),
   ("gospel", exGospelSec),
   ("metadata", .vDict [("source", .vStr "mirror"),
                        ("sourceUrl", .vStr "https://example.org/cache/2025-10-01")])]

/-- A record whose `firstReading` is a (truthy) integer: Python raises
`TypeError` on `'reference' in 5`. -/
def exBadRec : PyDict := [("firstReading", .vInt 5)]

/-- A 49-character string. -/
def s49 : String := ⟨List.replicate 49 'a'⟩

/-- A 50-character string. -/
def s50 : String := ⟨List.replicate 50 'a'⟩

/-- Section whose text has exactly 49 characters. -/
def exSec49 : List (String × Val) :=
  [("reference", .vStr "Gn 1:1"), ("citation", .vStr "Gn 1:1"),
   ("text", .vStr s49), ("title", .vStr "First Reading")]

/-- Section whose text has exactly 50 characters. -/
def exSec50 : List (String × Val) :=
  [("reference", .vStr "Gn 1:1"), ("citation", .vStr "Gn 1:1"),
   ("text", .vStr s50), ("title", .vStr "First Reading")]

/-- A document with a citation, a `Gospel` heading and a content body
with two paragraphs. -/
def exDocGospel : Node :=
  .elem "body" []
    [.elem "div" ["address"] [.text "Luke 9:57-62"],
     .elem "h3" [] [.text "Gospel"],
     .elem "div" ["content-body"]
       [.elem "p" [] [.text "First paragraph."],
        .elem "p" [] [.text "Second paragraph."]]]

/-- A document with a responsorial psalm whose response line also
appears a second time among the paragraphs. -/
def exDocPsalm : Node :=
  .elem "body" []
    [.elem "div" ["address"] [.text "Ps 23:1-3"],
     .elem "h3" [] [.text "Responsorial Psalm"],
     .elem "div" ["content-body"]
       [.elem "p" [] [.text "R. The Lord is my shepherd."],
        .elem "p" [] [.text "Fresh and green are the pastures."],
        .elem "p" [] [.text "R. The Lord is my shepherd."]]]

/-- A document whose psalm section is present but has no paragraph
text: the normalized body joins to the empty string. -/
def exDocPsalmEmpty : Node :=
  .elem "body" []
    [.elem "h3" [] [.text "Responsorial Psalm"],
     .elem "div" ["content-body"] []]

/-! ## Helper lemmas -/

/-- Appending the same string on the left is injective. -/
lemma str_append_right_inj (p a b : String) : p ++ a = p ++ b ↔ a = b := by
  constructor
  · intro h
    have hd := congrArg String.data h
    rw [String.data_append, String.data_append] at hd
    exact String.ext (List.append_cancel_left hd)
  · intro h
    rw [h]

/-- First three characters of a character list, enough to tell each
validator message family apart. -/
def pre3 (l : List Char) : List Char := l.take 3

/-- The first three characters of an append come from the left part
when it is long enough. -/
lemma pre3_append (x y : List Char) (h : 3 ≤ x.length) : pre3 (x ++ y) = pre3 x := by
  simp [pre3, List.take_append_eq_append_take, Nat.sub_eq_zero_of_le h]

/-- Strings with different three-character beginnings differ. -/
lemma ne_of_pre3 (a b : String) (h : pre3 a.data ≠ pre3 b.data) : a ≠ b :=
  fun he => h (by rw [he])

/-- Two appends whose left parts are at least three characters long and
start differently are different strings. -/
lemma suffix_ne (A C B D : String) (hA : 3 ≤ A.data.length) (hC : 3 ≤ C.data.length)
    (hne : pre3 A.data ≠ pre3 C.data) : A ++ B ≠ C ++ D := by
  apply ne_of_pre3
  rw [String.data_append, String.data_append, pre3_append _ _ hA, pre3_append _ _ hC]
  exact hne

/-- A length-report message is never a missing-field message. -/
lemma tooShort_ne_missing (name : String) (n : Nat) (f : String) :
    tooShortMsg name n ≠ missingFieldMsg name f := by
  unfold tooShortMsg missingFieldMsg
  intro h
  rw [str_append_right_inj] at h
  exact absurd h (suffix_ne _ _ _ _ (by decide) (by decide) (by decide))

/-- A length-report message is never an empty-field message. -/
lemma tooShort_ne_empty (name : String) (n : Nat) (f : String) :
    tooShortMsg name n ≠ emptyFieldMsg name f := by
  unfold tooShortMsg emptyFieldMsg
  intro h
  rw [str_append_right_inj] at h
  exact absurd h (suffix_ne _ _ _ _ (by decide) (by decide) (by decide))

/-! ## Claim theorems -/

/-- C2: for every record `r`, `verify_checksum(r, calculate_checksum(r))`
returns true. -/
theorem verify_checksum_roundtrip :
    ∀ r : PyDict, verify_checksum r (calculate_checksum r) = true := by
  intro r
  unfold verify_checksum
  exact beq_self_eq_true _

/-- C1: records with identical values in the five content fields (date,
firstReading, psalm, secondReading, gospel) have identical checksums,
whatever their metadata (or any other) fields hold: the checksum is
computed from the content sub-object only. -/
theorem checksum_ignores_metadata (r1 r2 : PyDict)
    (hdate : dget r1 "date" = dget r2 "date")
    (hfirst : dget r1 "firstReading" = dget r2 "firstReading")
    (hpsalm : dget r1 "psalm" = dget r2 "psalm")
    (hsecond : dget r1 "secondReading" = dget r2 "secondReading")
    (hgospel : dget r1 "gospel" = dget r2 "gospel") :
    calculate_checksum r1 = calculate_checksum r2 := by
  unfold calculate_checksum contentOf
  rw [hdate, hfirst, hpsalm, hsecond, hgospel]

/-- Witness for C1: two complete records that differ exactly in their
metadata block have equal checksums. -/
theorem checksum_ignores_metadata_witness :
    calculate_checksum exRecA = calculate_checksum exRecB :=
  checksum_ignores_metadata exRecA exRecB rfl rfl rfl rfl rfl

/-- Pure form of the `validate_reading_section` field loop over a dict
section: the `Except` layer cannot fail there. -/
def fieldLoop (d : List (String × Val)) (name : String) :
    List String → List String → List String
  | [], acc => acc
  | f :: fs, acc =>
    match List.lookup f d with
    | some v => fieldLoop d name fs (if truthy v then acc else acc ++ [emptyFieldMsg name f])
    | none => fieldLoop d name fs (acc ++ [missingFieldMsg name f])

/-- On a dict section the field loop of `fieldErrors` never raises and
computes `fieldLoop`. -/
lemma fieldErrors_gen (d : List (String × Val)) (name : String)
    (fields : List String) (acc : List String) :
    List.foldlM
      (fun acc field => do
        let present ← pyContains (.vDict d) field
        if present then do
          let v ← pyIndex (.vDict d) field
          if truthy v then pure acc else pure (acc ++ [emptyFieldMsg name field])
        else
          pure (acc ++ [missingFieldMsg name field]))
      acc fields = Except.ok (fieldLoop d name fields acc) := by
  induction fields generalizing acc with
  | nil => rfl
  | cons f fs ih =>
    rw [List.foldlM_cons]
    cases hl : List.lookup f d with
    | none =>
      have ih2 := ih (acc ++ [missingFieldMsg name f])
      simp [pyContains, pyIndex, hl, Bind.bind, Except.bind, pure, Except.pure,
        fieldLoop] at ih2 ⊢
      exact ih2
    | some v =>
      cases ht : truthy v
      · have ih2 := ih (acc ++ [emptyFieldMsg name f])
        simp [pyContains, pyIndex, hl, ht, Bind.bind, Except.bind, pure, Except.pure,
          fieldLoop] at ih2 ⊢
        exact ih2
      · have ih2 := ih acc
        simp [pyContains, pyIndex, hl, ht, Bind.bind, Except.bind, pure, Except.pure,
          fieldLoop] at ih2 ⊢
        exact ih2

/-- `fieldErrors` on a dict section. -/
lemma fieldErrors_dict (d : List (String × Val)) (name : String) :
    fieldErrors (.vDict d) name =
      .ok (fieldLoop d name ["reference", "citation", "text", "title"] []) := by
  unfold fieldErrors
  exact fieldErrors_gen d name _ _

/-- Values on which Python `len` is defined. -/
def sizedVal : Val → Bool
  | .vStr _ => true
  | .vList _ => true
  | .vDict _ => true
  | _ => false

/-- A section value on which `validate_reading_section` cannot raise: a
dict whose `text` entry (when present) is sized. -/
def sectionSafe : Val → Bool
  | .vDict d =>
    (match List.lookup "text" d with
     | some w => sizedVal w
     | none => true)
  | _ => false

/-- A record on which `validate_reading` cannot raise: each of its four
section fields, when present and truthy, is a safe section. -/
def fieldSafe (r : PyDict) (k : String) : Bool :=
  match dget r k with
  | some v => !truthy v || sectionSafe v
  | none => true

/-- Safety of a whole record, covering all four section fields. -/
def recordSafe (r : PyDict) : Bool :=
  fieldSafe r "firstReading" && fieldSafe r "gospel" &&
    fieldSafe r "psalm" && fieldSafe r "secondReading"

/-- Unpacking of `sectionSafe`. -/
lemma sectionSafe_dict {v : Val} (h : sectionSafe v = true) :
    ∃ d, v = .vDict d ∧ ∀ w, List.lookup "text" d = some w → sizedVal w = true := by
  cases v <;> simp [sectionSafe] at h
  case vDict d =>
    refine ⟨d, rfl, ?_⟩
    intro w hw
    rw [hw] at h
    exact h

/-- `validate_reading_section` never raises on a dict section whose
text entry is sized. -/
lemma validate_reading_section_dict_ok (d : List (String × Val)) (name : String)
    (h : ∀ w, List.lookup "text" d = some w → sizedVal w = true) :
    ∃ errs, validate_reading_section (.vDict d) name = .ok errs := by
  unfold validate_reading_section
  rw [fieldErrors_dict]
  cases hl : List.lookup "text" d with
  | none =>
    simp [pyContains, hl, Bind.bind, Except.bind]
    exact ⟨_, rfl⟩
  | some w =>
    have hw := h w hl
    cases w <;> simp [sizedVal] at hw <;>
      · simp [pyContains, pyIndex, pyLen, hl, Bind.bind, Except.bind]
        split <;> exact ⟨_, rfl⟩

/-- `validate_psalm_section` never raises on a dict section whose text
entry is sized. -/
lemma validate_psalm_section_dict_ok (d : List (String × Val))
    (h : ∀ w, List.lookup "text" d = some w → sizedVal w = true) :
    ∃ errs, validate_psalm_section (.vDict d) = .ok errs := by
  obtain ⟨E, hE⟩ := validate_reading_section_dict_ok d "Psalm" h
  unfold validate_psalm_section
  rw [hE]
  cases hr : List.lookup "response" d with
  | none =>
    simp [pyContains, hr, Bind.bind, Except.bind]
    exact ⟨_, rfl⟩
  | some v =>
    cases ht : truthy v <;>
      · simp [pyContains, pyIndex, hr, ht, Bind.bind, Except.bind]
        exact ⟨_, rfl⟩

/-- A safe section value passes `validate_reading_section` without
raising. -/
lemma section_phase_ok (v : Val) (name : String) (h : sectionSafe v = true) :
    ∃ es, validate_reading_section v name = .ok es := by
  obtain ⟨d, rfl, hw⟩ := sectionSafe_dict h
  exact validate_reading_section_dict_ok d name hw

/-- A safe section value passes `validate_psalm_section` without
raising. -/
lemma psalm_section_ok (v : Val) (h : sectionSafe v = true) :
    ∃ es, validate_psalm_section v = .ok es := by
  obtain ⟨d, rfl, hw⟩ := sectionSafe_dict h
  exact validate_psalm_section_dict_ok d hw

/-- The first-reading phase never raises on a safe field. -/
lemma firstReadingPhase_ok (r : PyDict) (h : fieldSafe r "firstReading" = true) :
    ∃ es, firstReadingPhase r = .ok es := by
  unfold fieldSafe at h
  unfold firstReadingPhase
  cases hg : dget r "firstReading" with
  | none => exact ⟨[], rfl⟩
  | some v =>
    rw [hg] at h
    cases ht : truthy v
    · simp [ht]
    · simp [ht] at h ⊢
      exact section_phase_ok v "First Reading" h

/-- The gospel phase never raises on a safe field. -/
lemma gospelPhase_ok (r : PyDict) (h : fieldSafe r "gospel" = true) :
    ∃ es, gospelPhase r = .ok es := by
  unfold fieldSafe at h
  unfold gospelPhase
  cases hg : dget r "gospel" with
  | none => exact ⟨_, rfl⟩
  | some v =>
    rw [hg] at h
    cases ht : truthy v
    · simp [ht]
    · simp [ht] at h ⊢
      exact section_phase_ok v "Gospel" h

/-- The psalm phase never raises on a safe field. -/
lemma psalmPhase_ok (r : PyDict) (h : fieldSafe r "psalm" = true) :
    ∃ es, psalmPhase r = .ok es := by
  unfold fieldSafe at h
  unfold psalmPhase
  cases hg : dget r "psalm" with
  | none => exact ⟨[], rfl⟩
  | some v =>
    rw [hg] at h
    cases ht : truthy v
    · simp [ht]
    · simp [ht] at h ⊢
      exact psalm_section_ok v h

/-- The second-reading phase never raises on a safe field. -/
lemma secondReadingPhase_ok (r : PyDict) (h : fieldSafe r "secondReading" = true) :
    ∃ es, secondReadingPhase r = .ok es := by
  unfold fieldSafe at h
  unfold secondReadingPhase
  cases hg : dget r "secondReading" with
  | none => exact ⟨[], rfl⟩
  | some v =>
    rw [hg] at h
    cases ht : truthy v
    · simp [ht]
    · simp [ht] at h ⊢
      exact section_phase_ok v "Second Reading" h

/-- C3 refutation input: on a record whose `firstReading` field holds
the truthy integer `5`, the Python source evaluates `'reference' in 5`
and raises `TypeError`; the model returns the corresponding error. -/
theorem validate_reading_raises_counterexample :
    validate_reading exBadRec = .error "TypeError: argument not iterable" := rfl

/-- C3 (amended): `validate_reading` returns without raising on every
record whose section fields, when present and truthy, are dicts with a
sized `text` entry (every record the scraper builds is of this shape);
the boolean it returns is true exactly when the error list is empty.
On other records it can raise `TypeError`, as the counterexample
shows. -/
theorem validate_reading_total_on_safe :
    (∀ r : PyDict, recordSafe r = true →
       ∃ b errs, validate_reading r = .ok (b, errs)) ∧
    (∀ (r : PyDict) (b : Bool) (errs : List String),
       validate_reading r = .ok (b, errs) → (b = true ↔ errs = [])) := by
  constructor
  · intro r hr
    unfold recordSafe at hr
    simp only [Bool.and_eq_true] at hr
    obtain ⟨⟨⟨h1, h2⟩, h3⟩, h4⟩ := hr
    obtain ⟨e2, he2⟩ := firstReadingPhase_ok r h1
    obtain ⟨e3, he3⟩ := gospelPhase_ok r h2
    obtain ⟨e4, he4⟩ := psalmPhase_ok r h3
    obtain ⟨e5, he5⟩ := secondReadingPhase_ok r h4
    unfold validate_reading
    rw [he2, he3, he4, he5]
    exact ⟨_, _, rfl⟩
  · intro r b errs h
    unfold validate_reading at h
    repeat' split at h
    any_goals exact Except.noConfusion h
    injection h with h2
    injection h2 with hb herrs
    subst hb
    subst herrs
    simp [beq_iff_eq, List.length_eq_zero]

/-- Witness for C3: a complete well-formed record is safe, validates
without raising, and its success boolean matches list emptiness. -/
theorem validate_reading_total_on_safe_witness :
    (∃ b errs, validate_reading exRecA = .ok (b, errs)) ∧
    (true = true ↔ ([] : List String) = []) :=
  ⟨validate_reading_total_on_safe.1 exRecA rfl,
   validate_reading_total_on_safe.2 exRecA true [] rfl⟩

/-- C4: validation is deterministic (definitionally, the model being a
pure function) and its error list is assembled in the fixed traversal
order: top-level field errors, then first reading, gospel, psalm,
second reading, and liturgicalDate errors. -/
theorem validate_reading_order_stable :
    (∀ r : PyDict, validate_reading r = validate_reading r) ∧
    (∀ r : PyDict, validate_reading r = validatePhased r) := by
  refine ⟨fun r => rfl, fun r => ?_⟩
  unfold validate_reading validatePhased topLevelErrors
  cases firstReadingPhase r with
  | error e => simp [Bind.bind, Except.bind]
  | ok e2 =>
    cases gospelPhase r with
    | error e => simp [Bind.bind, Except.bind]
    | ok e3 =>
      cases psalmPhase r with
      | error e => simp [Bind.bind, Except.bind]
      | ok e4 =>
        cases secondReadingPhase r with
        | error e => simp [Bind.bind, Except.bind]
        | ok e5 =>
          simp [Bind.bind, Except.bind, pure, Except.pure, List.append_assoc]

/-- A length-report message never arises from the field-presence loop. -/
lemma fieldLoop_no_tooShort (d : List (String × Val)) (name : String) :
    ∀ (fields acc : List String),
      (∀ m, tooShortMsg name m ∉ acc) →
        ∀ n, tooShortMsg name n ∉ fieldLoop d name fields acc := by
  intro fields
  induction fields with
  | nil =>
    intro acc h n
    exact h n
  | cons f fs ih =>
    intro acc h n
    unfold fieldLoop
    cases hl : List.lookup f d with
    | none =>
      apply ih
      intro m hm
      rcases List.mem_append.mp hm with hma | hmb
      · exact h m hma
      · rw [List.mem_singleton] at hmb
        exact tooShort_ne_missing name m f hmb
    | some v =>
      cases ht : truthy v
      · simp only [ht, if_false]
        apply ih
        intro m hm
        rcases List.mem_append.mp hm with hma | hmb
        · exact h m hma
        · rw [List.mem_singleton] at hmb
          exact tooShort_ne_empty name m f hmb
      · simp only [ht, if_true]
        exact ih acc h n

/-- C5: a section whose text field is a 49-character string gets a
"Text too short (49 chars)" error; a section whose text field is a
50-character string gets no length error at all. -/
theorem text_length_boundary (d1 d2 : List (String × Val)) (name : String)
    (t1 t2 : String)
    (h1 : List.lookup "text" d1 = some (.vStr t1)) (hlen1 : t1.length = 49)
    (h2 : List.lookup "text" d2 = some (.vStr t2)) (hlen2 : t2.length = 50) :
    (∃ errs, validate_reading_section (.vDict d1) name = .ok errs ∧
       tooShortMsg name 49 ∈ errs) ∧
    (∃ errs, validate_reading_section (.vDict d2) name = .ok errs ∧
       ∀ n, tooShortMsg name n ∉ errs) := by
  constructor
  · refine ⟨fieldLoop d1 name ["reference", "citation", "text", "title"] [] ++
      [tooShortMsg name 49], ?_, ?_⟩
    · unfold validate_reading_section
      rw [fieldErrors_dict]
      simp [pyContains, pyIndex, pyLen, h1, hlen1, Bind.bind, Except.bind, pure,
        Except.pure]
    · exact List.mem_append_right _ (List.mem_singleton.mpr rfl)
  · refine ⟨fieldLoop d2 name ["reference", "citation", "text", "title"] [], ?_, ?_⟩
    · unfold validate_reading_section
      rw [fieldErrors_dict]
      simp [pyContains, pyIndex, pyLen, h2, hlen2, Bind.bind, Except.bind, pure,
        Except.pure]
    · intro n
      exact fieldLoop_no_tooShort d2 name _ [] (by intro m hm; cases hm) n

/-- Witness for C5 at concrete 49- and 50-character sections. -/
theorem text_length_boundary_witness :
    (∃ errs, validate_reading_section (.vDict exSec49) "First Reading" = .ok errs ∧
       tooShortMsg "First Reading" 49 ∈ errs) ∧
    (∃ errs, validate_reading_section (.vDict exSec50) "First Reading" = .ok errs ∧
       ∀ n, tooShortMsg "First Reading" n ∉ errs) :=
  text_length_boundary exSec49 exSec50 "First Reading" s49 s50 rfl (by decide) rfl
    (by decide)

/-- The lookup in the Python season→color dict with default 'green'
agrees with the specification's table. -/
lemma table_green (season : String) :
    (seasonColors.lookup season).getD "green" = colorTableSpec season := by
  by_cases h1 : season = "Advent"
  · subst h1; rfl
  by_cases h2 : season = "Christmas"
  · subst h2; rfl
  by_cases h3 : season = "Lent"
  · subst h3; rfl
  by_cases h4 : season = "Easter"
  · subst h4; rfl
  by_cases h5 : season = "Ordinary Time"
  · subst h5; rfl
  have e1 : (season == "Advent") = false := beq_eq_false_iff_ne.mpr h1
  have e2 : (season == "Christmas") = false := beq_eq_false_iff_ne.mpr h2
  have e3 : (season == "Lent") = false := beq_eq_false_iff_ne.mpr h3
  have e4 : (season == "Easter") = false := beq_eq_false_iff_ne.mpr h4
  have e5 : (season == "Ordinary Time") = false := beq_eq_false_iff_ne.mpr h5
  simp [seasonColors, List.lookup, colorTableSpec, e1, e2, e3, e4, e5,
    h1, h2, h3, h4, h5]

/-- C6: the liturgical color function agrees with the specification's
rule everywhere (feast-day mention of mary/virgin gives white, else
the season table with green as default), and on the three concrete
cases the specification lists. -/
theorem liturgical_color_spec :
    (∀ (season : String) (feastDay : Option String),
       get_liturgical_color season feastDay = colorSpec season feastDay) ∧
    get_liturgical_color "Lent" none = "purple" ∧
    get_liturgical_color "Easter" (some "Solemnity of the Blessed Virgin Mary") =
      "white" ∧
    get_liturgical_color "Ordinary Time" none = "green" := by
  refine ⟨?_, rfl, rfl, rfl⟩
  intro season feastDay
  cases feastDay with
  | none =>
    show (seasonColors.lookup season).getD "green" = colorTableSpec season
    exact table_green season
  | some f =>
    by_cases hf : f = ""
    · subst hf
      show (seasonColors.lookup season).getD "green" = colorTableSpec season
      exact table_green season
    · unfold get_liturgical_color colorSpec
      have hft : (f != "") = true := by simpa using hf
      simp only [hft, Bool.true_and]
      cases hp : (pyIn "mary" (pyLower f) || pyIn "virgin" (pyLower f)) <;>
        simp [hp, table_green]

/-- C7: the season function agrees with the specification's rule
everywhere (keyword match in the listed order, then the month table),
and on the concrete case of a keyword-free title in December. -/
theorem liturgical_season_spec :
    (∀ (title : String) (month : Nat),
       determine_season title month = seasonSpec title month) ∧
    determine_season "Wednesday of the Twenty-seventh Week" 12 = "Advent" := by
  refine ⟨?_, rfl⟩
  intro title month
  simp only [determine_season, seasonSpec]
  cases hA : pyIn "advent" (pyLower title) <;> simp [hA]
  cases hC : pyIn "christmas" (pyLower title) <;> simp [hC]
  cases hL : pyIn "lent" (pyLower title) <;>
    cases hW : pyIn "ash wednesday" (pyLower title) <;> simp [hL, hW]

/-- A paragraph that starts with a response marker is nonempty. -/
lemma startsMarker_ne_empty {t : String} (h : startsMarker t = true) : t ≠ "" := by
  intro he
  subst he
  exact absurd h (by decide)

/-- The parts accumulated by the psalm loop: every paragraph that is
marked or nonempty, in order, appended to the incoming accumulator. -/
lemma psalmLoop_parts (ts : List String) : ∀ resp parts,
    (psalmLoop ts (resp, parts)).2 =
      parts ++ ts.filter (fun t => startsMarker t || t != "") := by
  induction ts with
  | nil =>
    intro resp parts
    simp [psalmLoop]
  | cons t ts ih =>
    intro resp parts
    unfold psalmLoop
    cases hm : startsMarker t
    · cases he : (t != "") <;>
        simp [hm, he, ih, List.filter_cons, List.append_assoc]
    · simp [hm, ih, List.filter_cons, List.append_assoc]

/-- Once the response is set (nonempty), the psalm loop never changes
it. -/
lemma psalmLoop_resp_set (ts : List String) : ∀ resp parts, resp ≠ "" →
    (psalmLoop ts (resp, parts)).1 = resp := by
  induction ts with
  | nil =>
    intro resp parts _
    rfl
  | cons t ts ih =>
    intro resp parts hr
    unfold psalmLoop
    have hb : (resp == "") = false := beq_eq_false_iff_ne.mpr hr
    cases hm : startsMarker t
    · cases he : (t != "") <;> simp [hm, he, hb, ih resp _ hr]
    · simp [hm, hb, ih resp _ hr]

/-- Starting from the empty response, the psalm loop returns the first
marker paragraph, or the empty string when there is none. -/
lemma psalmLoop_resp (ts : List String) : ∀ parts,
    (psalmLoop ts ("", parts)).1 = ((ts.find? startsMarker).getD "") := by
  induction ts with
  | nil =>
    intro parts
    rfl
  | cons t ts ih =>
    intro parts
    unfold psalmLoop
    cases hm : startsMarker t
    · cases he : (t != "") <;> simp [hm, he, List.find?_cons, ih]
    · simp [hm, List.find?_cons]
      exact psalmLoop_resp_set ts t _ (startsMarker_ne_empty hm)

/-- C9: whenever psalm extraction returns a record, its response field
is the first normalized paragraph beginning with a response marker
(empty string when there is none), every marker paragraph is in the
part list whose blank-line join is the record's text, and the text is
exactly that join. -/
theorem psalm_response_extraction (doc : Node) (rec : PsalmRec)
    (h : extract_psalm doc = some rec) :
    ∃ i sec, locatePsalmSection doc = some (i, sec) ∧
      rec.response = (((paraTextsAll sec).find? startsMarker).getD "") ∧
      rec.text = String.intercalate "\n\n"
        ((paraTextsAll sec).filter (fun t => startsMarker t || t != "")) ∧
      (∀ t ∈ paraTextsAll sec, startsMarker t = true →
         t ∈ (paraTextsAll sec).filter (fun t => startsMarker t || t != "")) ∧
      ((paraTextsAll sec).find? startsMarker = none → rec.response = "") := by
  unfold extract_psalm at h
  cases hls : locatePsalmSection doc with
  | none =>
    rw [hls] at h
    exact Option.noConfusion h
  | some isec =>
    rw [hls] at h
    obtain ⟨i, sec⟩ := isec
    injection h with h2
    refine ⟨i, sec, rfl, ?_, ?_, ?_, ?_⟩
    · rw [← h2]
      exact psalmLoop_resp (paraTextsAll sec) []
    · rw [← h2]
      show String.intercalate "\n\n" (psalmLoop (paraTextsAll sec) ("", [])).2 = _
      rw [psalmLoop_parts]
      rfl
    · intro t ht hmk
      rw [List.mem_filter]
      exact ⟨ht, by simp [hmk]⟩
    · intro hnone
      rw [← h2]
      show (psalmLoop (paraTextsAll sec) ("", [])).1 = ""
      rw [psalmLoop_resp, hnone]
      rfl

/-- The record psalm extraction produces on `exDocPsalm`. -/
def exPsalmRec : PsalmRec :=
  { reference := "Ps 23:1-3", citation := "Ps 23:1-3",
    text := "R. The Lord is my shepherd.\n\nFresh and green are the pastures.\n\nR. The Lord is my shepherd.",
    response := "R. The Lord is my shepherd.",
    title := "Responsorial Psalm", audioUrl := none }

/-- Witness for C9 on a concrete psalm document whose response line
also recurs in the body. -/
theorem psalm_response_extraction_witness :
    ∃ i sec, locatePsalmSection exDocPsalm = some (i, sec) ∧
      exPsalmRec.response = (((paraTextsAll sec).find? startsMarker).getD "") ∧
      exPsalmRec.text = String.intercalate "\n\n"
        ((paraTextsAll sec).filter (fun t => startsMarker t || t != "")) ∧
      (∀ t ∈ paraTextsAll sec, startsMarker t = true →
         t ∈ (paraTextsAll sec).filter (fun t => startsMarker t || t != "")) ∧
      ((paraTextsAll sec).find? startsMarker = none → exPsalmRec.response = "") :=
  psalm_response_extraction exDocPsalm exPsalmRec rfl

/-- C8 refutation input: on `exDocPsalmEmpty` the psalm section is
located, its normalized body joins to the empty string, and the
extractor still returns a record (with empty text) instead of absent. -/
theorem psalm_empty_text_counterexample :
    locatePsalmSection exDocPsalmEmpty =
      some (3, Node.elem "div" ["content-body"] []) ∧
    paraTextsAll (Node.elem "div" ["content-body"] []) = [] ∧
    extract_psalm exDocPsalmEmpty =
      some { reference := "", citation := "", text := "", response := "",
             title := "Responsorial Psalm", audioUrl := none } :=
  ⟨rfl, rfl, rfl⟩

/-- C8 (amended): for the first, second and gospel reading types the
extractor returns absent rather than a record with empty text (every
returned record has nonempty text); the psalm extractor has no such
guard and returns a record whose text is the empty string when the
located section has no paragraph text. -/
theorem extract_absent_on_empty_text :
    (∀ (doc : Node) (rt : RType) (rec : ReadingRec),
       extract_reading doc rt = some rec → rec.text ≠ "") ∧
    (∃ rec : PsalmRec, extract_psalm exDocPsalmEmpty = some rec ∧ rec.text = "") := by
  constructor
  · intro doc rt rec h
    unfold extract_reading at h
    cases hls : locateSection doc rt with
    | none =>
      rw [hls] at h
      exact Option.noConfusion h
    | some isec =>
      rw [hls] at h
      obtain ⟨i, sec⟩ := isec
      dsimp only at h
      split at h
      · exact Option.noConfusion h
      · next hne =>
        injection h with h2
        rw [← h2]
        simpa using hne
  · exact ⟨_, rfl, rfl⟩

/-- The record gospel extraction produces on `exDocGospel`. -/
def exGospelRec : ReadingRec :=
  { reference := "Luke 9:57-62", citation := "Luke 9:57-62",
    text := "First paragraph.\n\nSecond paragraph.", title := "Gospel",
    audioUrl := none }

/-- Witness for C8 on a concrete gospel document with nonempty body. -/
theorem extract_absent_on_empty_text_witness :
    exGospelRec.text ≠ "" :=
  extract_absent_on_empty_text.1 exDocGospel .gospel exGospelRec rfl

/-- C10: every record produced by `_extract_reading` or
`_extract_psalm` has its reference field equal to its citation field;
both are set from the same extracted citation string. -/
theorem reference_eq_citation :
    (∀ (doc : Node) (rt : RType) (rec : ReadingRec),
       extract_reading doc rt = some rec → rec.reference = rec.citation) ∧
    (∀ (doc : Node) (rec : PsalmRec),
       extract_psalm doc = some rec → rec.reference = rec.citation) := by
  constructor
  · intro doc rt rec h
    unfold extract_reading at h
    cases hls : locateSection doc rt with
    | none =>
      rw [hls] at h
      exact Option.noConfusion h
    | some isec =>
      rw [hls] at h
      obtain ⟨i, sec⟩ := isec
      dsimp only at h
      split at h
      · exact Option.noConfusion h
      · injection h with h2
        rw [← h2]
  · intro doc rec h
    unfold extract_psalm at h
    cases hls : locatePsalmSection doc with
    | none =>
      rw [hls] at h
      exact Option.noConfusion h
    | some isec =>
      rw [hls] at h
      obtain ⟨i, sec⟩ := isec
      injection h with h2
      rw [← h2]

/-- Witness for C10 on concrete gospel and psalm extractions. -/
theorem reference_eq_citation_witness :
    exGospelRec.reference = exGospelRec.citation ∧
    exPsalmRec.reference = exPsalmRec.citation :=
  ⟨reference_eq_citation.1 exDocGospel .gospel exGospelRec rfl,
   reference_eq_citation.2 exDocPsalm exPsalmRec rfl⟩
